import Mathlib

/-!
Verification development for the MCP server in `src/python/mcp_server.py`:
a shallow embedding of the JSON-RPC dispatch endpoint (`mcp_post`) and of the
SSE streaming-session generator (`event_stream`), with theorems about the
dispatch contract, error handling, and the heartbeat loop.
-/

set_option maxRecDepth 4000

/-- A JSON value, as produced by Python's `json` module from a request body.
Objects are modelled as association lists with (as in a decoded Python dict)
unique keys; lookup takes the first binding. Numbers are modelled as integers,
which covers every numeric literal appearing in the server and in the claims. -/
inductive Json where
  | null
  | bool (b : Bool)
  | num (n : Int)
  | str (s : String)
  | arr (elems : List Json)
  | obj (fields : List (String × Json))

/-- Startup configuration read from the environment once at process start
(lines 33-39): the debug flag and the server name/version.  The dispatcher
receives these as immutable values. -/
structure Settings where
  serverName : String
  serverVersion : String
  debug : Bool
deriving DecidableEq

/-- The default configuration (env vars unset): MCP_SERVER_NAME,
MCP_SERVER_VERSION and DEBUG defaults of lines 33, 38, 39. -/
def defaultSettings : Settings :=
  { serverName := "Python FastAPI MCP", serverVersion := "1.0.0", debug := false }

/-- JSON-RPC error object as built by the handlers: `code`, `message`, `data`
(the `data` member is always emitted by the source, possibly as JSON null). -/
structure ErrorObj where
  code : Int
  message : String
  data : Json

/-- Response envelope (pydantic model `MCPResponse`, lines 56-60, and the
literal response dicts): `result`/`error` are `none` exactly when the
corresponding key is absent from the emitted JSON object; `some Json.null`
models a present key with value null (e.g. `shutdown`'s `"result": None`). -/
structure MCPResponse where
  jsonrpc : String
  id : Json
  result : Option Json
  error : Option ErrorObj

/-- Validated request (pydantic model `MCPRequest`, lines 50-54) after the
`params = mcp_request.params or {}` normalisation of line 296: an absent or
null `params` becomes the empty object. -/
structure MCPRequest where
  jsonrpc : String
  id : Json
  method : String
  params : List (String × Json)

/-- One invocation of the (inline stub) Backend by a handler body, recording
which operation ran and the raw argument it received. -/
inductive BackendCall where
  | listTables
  | discoverData (table : Json)
  | prepareQuery (q : Json)
  | query (q : Json)

/-- Result of one `mcp_post` invocation: the response envelope plus the trace
of Backend operations executed while handling it. -/
structure DispatchOut where
  resp : MCPResponse
  calls : List BackendCall

/-- An inbound HTTP body: either bytes that are not valid JSON (so
`await request.json()` at line 291 raises), or a decoded JSON value. -/
inductive Body where
  | invalid
  | json (j : Json)

/-- Python truthiness of a decoded JSON value, as used by the
`if not table` / `if not query` parameter checks (lines 426, 465, 501). -/
def jsonTruthy : Json → Bool
  | .null => false
  | .bool b => b
  | .num n => n != 0
  | .str s => s != ""
  | .arr l => !l.isEmpty
  | .obj fs => !fs.isEmpty

/-- Pydantic `str` field validation: accepts exactly JSON strings. -/
def asString : Json → Option String
  | .str s => some s
  | _ => none

/-- Pydantic validation of the `id: Union[int, str]` field: an integer or a
string (null, booleans, arrays, objects are rejected). -/
def isValidId : Json → Bool
  | .num _ => true
  | .str _ => true
  | _ => false

/-- `MCPRequest(**body)` validation (lines 50-54, 293) on a decoded JSON
object: `jsonrpc` defaults to "2.0" and must be a string if present; `id` is
required and must be an int or string; `method` is required and must be a
string; `params` is optional and must be an object or null.  Extra keys are
ignored (pydantic default).  The `params or {}` normalisation of line 296 is
folded in (absent/null params become the empty object). -/
def validateRequest (fields : List (String × Json)) : Option MCPRequest := do
  let jsonrpc ← match fields.lookup "jsonrpc" with
    | none => some "2.0"
    | some v => asString v
  let idv ← match fields.lookup "id" with
    | none => none
    | some v => if isValidId v then some v else none
  let method ← match fields.lookup "method" with
    | none => none
    | some v => asString v
  let params ← match fields.lookup "params" with
    | none => some ([] : List (String × Json))
    | some .null => some ([] : List (String × Json))
    | some (.obj fs) => some fs
    | some _ => none
  some { jsonrpc := jsonrpc, id := idv, method := method, params := params }

/-- Best-effort id recovery in the parse-error handler (line 305):
`body.get("id") if isinstance(body, dict) else None`, for the case where the
local `body` is bound (the JSON decode itself succeeded). -/
def recoverId (j : Json) : Json :=
  match j with
  | .obj fs => (fs.lookup "id").getD .null
  | _ => .null

/-- The DEBUG-gated `data` member of the error handlers
(`{"detail": str(e)} if DEBUG else None`). -/
def errData (cfg : Settings) (detail : String) : Json :=
  if cfg.debug then .obj [("detail", .str detail)] else .null

/-- The `list_tables` stub result (lines 402-409). -/
def tablesResult : Json :=
  .obj [("tables", .arr [.str "users", .str "products", .str "orders"])]

/-- The `discover_data` stub result (lines 439-449). -/
def discoverResult : Json :=
  .obj [("columns", .arr [
    .obj [("name", .str "id"), ("type", .str "integer")],
    .obj [("name", .str "name"), ("type", .str "string")],
    .obj [("name", .str "created_at"), ("type", .str "timestamp")]])]

/-- The `prepare_query` stub result (lines 478-485). -/
def prepareResult : Json :=
  .obj [("prepared", .bool true), ("parameters", .arr [])]

/-- The `query` stub result (lines 514-524). -/
def queryResult : Json :=
  .obj [("columns", .arr [.str "id", .str "name"]),
        ("rows", .arr [.arr [.num 1, .str "Example"],
                       .arr [.num 2, .str "Test"]])]

/-- The InvalidParams (-32602) response for a missing required parameter
(lines 427-435, 466-474, 502-510); its `data.detail` is emitted
unconditionally (not DEBUG-gated). -/
def invalidParamsResp (idv : Json) (pname : String) : MCPResponse :=
  { jsonrpc := "2.0", id := idv, result := none,
    error := some { code := -32602, message := "Invalid params",
                    data := .obj [("detail",
                      .str ("Missing required parameter: " ++ pname))] } }

/-- The method-routing body of `mcp_post` (lines 314-547) on a validated
request.  The "initialize" handler (lines 315-389) has no try/except of its
own and never succeeds: its result dict literal references the undefined name
`true` (lines 384-385), so evaluating it raises NameError and the outer
catch-all (lines 548-562) produces the -32603 "Internal error" response with
id null (HTTP 500); the NameError's message text is abstracted as a fixed
string.  The per-method `try/except` arms that would map a raised exception
to a -32000 response (e.g. lines 411-421) are unreachable for the inline stub
bodies of the other methods, which cannot raise, and so contribute no
behaviour here. -/
def dispatch (cfg : Settings) (req : MCPRequest) : DispatchOut :=
  if req.method = "initialize" then
    { resp := { jsonrpc := "2.0", id := .null, result := none,
                error := some
                  { code := -32603, message := "Internal error",
                    data := errData cfg "name true is not defined" } },
      calls := [] }
  else if req.method = "shutdown" then
    { resp := { jsonrpc := "2.0", id := req.id,
                result := some .null, error := none },
      calls := [] }
  else if req.method = "list_tables" then
    { resp := { jsonrpc := "2.0", id := req.id,
                result := some tablesResult, error := none },
      calls := [.listTables] }
  else if req.method = "discover_data" then
    let table := (req.params.lookup "table").getD .null
    if !jsonTruthy table then
      { resp := invalidParamsResp req.id "table", calls := [] }
    else
      { resp := { jsonrpc := "2.0", id := req.id,
                  result := some discoverResult, error := none },
        calls := [.discoverData table] }
  else if req.method = "prepare_query" then
    let q := (req.params.lookup "query").getD .null
    if !jsonTruthy q then
      { resp := invalidParamsResp req.id "query", calls := [] }
    else
      { resp := { jsonrpc := "2.0", id := req.id,
                  result := some prepareResult, error := none },
        calls := [.prepareQuery q] }
  else if req.method = "query" then
    let q := (req.params.lookup "query").getD .null
    if !jsonTruthy q then
      { resp := invalidParamsResp req.id "query", calls := [] }
    else
      { resp := { jsonrpc := "2.0", id := req.id,
                  result := some queryResult, error := none },
        calls := [.query q] }
  else
    { resp := { jsonrpc := "2.0", id := req.id, result := none,
                error := some { code := -32601, message := "Method not found",
                                data := .obj [("method", .str req.method)] } },
      calls := [] }

/-- The POST endpoint `mcp_post` (lines 278-565).  Exception-text details that
reach a DEBUG-gated `data.detail` are abstracted as fixed strings (no claim
depends on their content).  Notable faithful detail: when the body is not
valid JSON, `request.json()` raises before the local `body` is bound, so the
parse-error handler's expression `isinstance(body, dict)` (line 305) raises
UnboundLocalError; that error escapes the inner handler and is converted by
the outer catch-all (lines 548-562) into a -32603 "Internal error" response
with id null — not the -32700 response the inner handler was written to
produce. -/
def mcp_post (cfg : Settings) (body : Body) : DispatchOut :=
  match body with
  | .invalid =>
    { resp := { jsonrpc := "2.0", id := .null, result := none,
                error := some
                  { code := -32603, message := "Internal error",
                    data := errData cfg
                      "local variable body referenced before assignment" } },
      calls := [] }
  | .json j =>
    match j with
    | .obj fs =>
      match validateRequest fs with
      | some req => dispatch cfg req
      | none =>
        { resp := { jsonrpc := "2.0", id := recoverId j, result := none,
                    error := some
                      { code := -32700, message := "Parse error",
                        data := errData cfg "validation error" } },
          calls := [] }
    | _ =>
      { resp := { jsonrpc := "2.0", id := .null, result := none,
                  error := some
                    { code := -32700, message := "Parse error",
                      data := errData cfg "argument must be a mapping" } },
        calls := [] }

/-- A sequence of calls against the server: `mcp_post` reads only the startup
configuration (module constants fixed at import time) and mutates no state
visible to later calls, so a call history is the per-call map of `mcp_post`. -/
def runSeq (cfg : Settings) (bodies : List Body) : List DispatchOut :=
  bodies.map (mcp_post cfg)

/-- Outcome of one iteration of the heartbeat loop (lines 246-260): the
`yield`/`sleep` either succeeds, raises `asyncio.CancelledError`, or raises
some other exception (a failed emit). -/
inductive EmitOutcome where
  | success
  | cancelled
  | failure
deriving DecidableEq

/-- Effect of one non-cancelled loop iteration on the `missed_heartbeats`
counter: a successful emit resets it to 0 (line 251), a failed emit
increments it (line 256).  (`cancelled` exits the loop without touching the
counter.) -/
def hbStep (m : Nat) : EmitOutcome → Nat
  | .success => 0
  | .cancelled => m
  | .failure => m + 1

/-- The heartbeat loop (lines 246-260) run against a list of per-iteration
outcomes, starting from counter value `m`: returns `some j` when the loop
breaks after consuming `j` outcomes (cancellation, or `missed_heartbeats >=
3` after a failed emit), and `none` when the outcome list is exhausted with
the session still alive. -/
def hbLoop (m : Nat) : List EmitOutcome → Option Nat
  | [] => none
  | o :: os =>
    match o with
    | .success => (hbLoop 0 os).map (· + 1)
    | .cancelled => some 1
    | .failure =>
      if m + 1 ≥ 3 then some 1
      else (hbLoop (m + 1) os).map (· + 1)

/-- One chunk of the SSE stream, ignoring wire framing: the ready event with
the session's clientId (line 168), a capabilities envelope (line 239 — a
chunk the generator never actually reaches, see `event_stream`), a heartbeat
with a timestamp and the clientId (line 250), or the error event of line 264
with its fixed message and its detail text. -/
inductive StreamEvent where
  | ready (clientId : String)
  | capabilities (payload : Json)
  | heartbeat (timestamp : String) (clientId : String)
  | errorEvent (message : String) (detail : String)

/-- Whether a chunk is a heartbeat event. -/
def isHeartbeat : StreamEvent → Bool
  | .heartbeat _ _ => true
  | _ => false

/-- Whether a chunk is a capabilities event. -/
def isCapabilities : StreamEvent → Bool
  | .capabilities _ => true
  | _ => false

/-- The SSE generator `event_stream` (lines 165-266) as the timed list of
chunks of one session: the ready chunk at time 0; then, after
`asyncio.sleep(1)`, the construction of the capabilities dict raises
NameError — its literal references the undefined name `true` (lines 233-234)
— so the enclosing except of lines 261-264 emits the single error event at
time 1 and the generator terminates.  No capabilities chunk and no heartbeat
is ever emitted: the heartbeat loop of lines 246-260 (embedded above as
`hbStep`/`hbLoop`) is unreachable from the stream body.  The NameError's
message text is abstracted as a fixed string. -/
def event_stream (cid : String) : List (Nat × StreamEvent) :=
  [(0, .ready cid),
   (1, .errorEvent "Stream error" "name true is not defined")]

/-- The structural envelope invariant: exactly one of `result`/`error` is
present. -/
def exactlyOne (r : MCPResponse) : Prop :=
  (r.result.isSome = true ∧ r.error = none) ∨
  (r.result = none ∧ r.error.isSome = true)

/-- `params` lacks a non-empty string value for required key `k`: the key is
absent or maps to the empty string. -/
def lacksNonEmpty (ps : List (String × Json)) (k : String) : Prop :=
  ps.lookup k = none ∨ ps.lookup k = some (.str "")

theorem dispatch_exactlyOne (cfg : Settings) (req : MCPRequest) :
    exactlyOne (dispatch cfg req).resp := by
  unfold dispatch
  dsimp only
  repeat' split
  all_goals first
    | exact Or.inl ⟨rfl, rfl⟩
    | exact Or.inr ⟨rfl, rfl⟩

theorem mcp_post_valid (cfg : Settings) (fs : List (String × Json))
    (req : MCPRequest) (hv : validateRequest fs = some req) :
    mcp_post cfg (.json (.obj fs)) = dispatch cfg req := by
  simp [mcp_post, hv]

/-- C1: for every inbound call body — including the non-JSON body, non-object
JSON bodies, and object bodies failing envelope validation — the response
envelope produced by `mcp_post` contains exactly one of `result` and `error`,
never both and never neither. -/
theorem C1_envelope_exactly_one (cfg : Settings) (body : Body) :
    exactlyOne (mcp_post cfg body).resp := by
  cases body with
  | invalid => exact Or.inr ⟨rfl, rfl⟩
  | json j =>
    cases j with
    | obj fs =>
      cases hv : validateRequest fs with
      | some req =>
        rw [mcp_post_valid cfg fs req hv]
        exact dispatch_exactlyOne cfg req
      | none => simp [mcp_post, hv, exactlyOne]
    | null => exact Or.inr ⟨rfl, rfl⟩
    | bool b => exact Or.inr ⟨rfl, rfl⟩
    | num n => exact Or.inr ⟨rfl, rfl⟩
    | str s => exact Or.inr ⟨rfl, rfl⟩
    | arr l => exact Or.inr ⟨rfl, rfl⟩

/-- C2: evaluation at the failing input.  A fully valid "initialize" envelope
does not get its id echoed: evaluating the handler's result dict raises
NameError (the undefined name `true`, lines 384-385) and the outer catch-all
responds with -32603 and id null, so the id does not round-trip.  (For the
other five handled methods and for unknown methods — which get -32601 with
`data.method` set — the handlers do echo the request id.) -/
theorem C2_initialize_id_not_roundtrip :
    mcp_post defaultSettings (.json (.obj [("jsonrpc", Json.str "2.0"),
        ("id", Json.num 1), ("method", Json.str "initialize"),
        ("params", Json.obj [])])) =
      { resp := { jsonrpc := "2.0", id := .null, result := none,
                  error := some { code := -32603, message := "Internal error",
                                  data := .null } },
        calls := [] } := rfl

/-- C3: evaluation at the failing input.  A body that is not valid JSON makes
`request.json()` raise before the local `body` is bound, so the parse-error
handler itself faults on `isinstance(body, dict)` and the outer catch-all
responds with InternalError -32603 and id null — not with ParseError -32700
as the handler (and the spec) intended. -/
theorem C3_nonjson_body_internal_error :
    mcp_post defaultSettings Body.invalid =
      { resp := { jsonrpc := "2.0", id := .null, result := none,
                  error := some { code := -32603, message := "Internal error",
                                  data := .null } },
        calls := [] } := rfl

/-- C4 counterexample: a session whose entire call history is one valid
`query` request — no `initialize` was ever issued, so the claimed lifecycle
state is still Uninitialized — is nevertheless executed against the Backend
and answered with the stub success result. -/
theorem C4_counterexample_query_without_init :
    runSeq defaultSettings [Body.json (.obj [("jsonrpc", Json.str "2.0"),
        ("id", Json.num 2), ("method", Json.str "query"),
        ("params", Json.obj [("query", Json.str "SELECT 1")])])] =
      [{ resp := { jsonrpc := "2.0", id := Json.num 2,
                   result := some queryResult, error := none },
         calls := [BackendCall.query (Json.str "SELECT 1")] }] := rfl

/-- C4 (amended): the dispatcher maintains no session lifecycle state: each
response and Backend invocation depends only on the request itself (not on
the call history), `list_tables` is executed against the Backend in every
state — whether or not any `initialize` call preceded it — and `shutdown`
succeeds in every state. -/
theorem C4_amended_no_lifecycle (cfg : Settings) (hist : List Body)
    (fs : List (String × Json)) (req : MCPRequest)
    (hv : validateRequest fs = some req) :
    (runSeq cfg (hist ++ [.json (.obj fs)])).getLast? = some (dispatch cfg req) ∧
    (req.method = "list_tables" →
      dispatch cfg req =
        { resp := { jsonrpc := "2.0", id := req.id,
                    result := some tablesResult, error := none },
          calls := [BackendCall.listTables] }) ∧
    (req.method = "shutdown" →
      dispatch cfg req =
        { resp := { jsonrpc := "2.0", id := req.id,
                    result := some .null, error := none },
          calls := [] }) := by
  refine ⟨?_, fun hm => ?_, fun hm => ?_⟩
  · simp [runSeq, mcp_post_valid cfg fs req hv]
  · simp [dispatch, hm]
  · simp [dispatch, hm]

theorem C4_amended_witness :
    dispatch defaultSettings { jsonrpc := "2.0", id := Json.num 1,
                               method := "list_tables", params := [] } =
      { resp := { jsonrpc := "2.0", id := Json.num 1,
                  result := some tablesResult, error := none },
        calls := [BackendCall.listTables] } :=
  (C4_amended_no_lifecycle defaultSettings []
    [("id", Json.num 1), ("method", Json.str "list_tables")]
    { jsonrpc := "2.0", id := Json.num 1, method := "list_tables", params := [] }
    rfl).2.1 rfl

/-- C5: for a validated `discover_data` call whose params lack a non-empty
`table`, and for validated `prepare_query`/`query` calls whose params lack a
non-empty `query`, the response is the InvalidParams (-32602) error echoing
the request id, and the Backend is not invoked. -/
theorem C5_invalid_params_no_backend (cfg : Settings)
    (fs : List (String × Json)) (req : MCPRequest)
    (hv : validateRequest fs = some req) :
    (req.method = "discover_data" → lacksNonEmpty req.params "table" →
      mcp_post cfg (.json (.obj fs)) =
        { resp := invalidParamsResp req.id "table", calls := [] }) ∧
    (req.method = "prepare_query" → lacksNonEmpty req.params "query" →
      mcp_post cfg (.json (.obj fs)) =
        { resp := invalidParamsResp req.id "query", calls := [] }) ∧
    (req.method = "query" → lacksNonEmpty req.params "query" →
      mcp_post cfg (.json (.obj fs)) =
        { resp := invalidParamsResp req.id "query", calls := [] }) := by
  rw [mcp_post_valid cfg fs req hv]
  refine ⟨fun hm hl => ?_, fun hm hl => ?_, fun hm hl => ?_⟩ <;>
    rcases hl with hl | hl <;> simp [dispatch, hm, hl, jsonTruthy]

theorem C5_witness :
    mcp_post defaultSettings (.json (.obj [("id", Json.num 3),
        ("method", Json.str "discover_data")])) =
      { resp := invalidParamsResp (Json.num 3) "table", calls := [] } :=
  (C5_invalid_params_no_backend defaultSettings
    [("id", Json.num 3), ("method", Json.str "discover_data")]
    { jsonrpc := "2.0", id := Json.num 3, method := "discover_data", params := [] }
    rfl).1 rfl (Or.inl rfl)

/-- C7: evaluation at the failing input.  Two successive "initialize" calls
both fail: each raises NameError building its result dict (the undefined
name `true`, lines 384-385) and each is answered by the outer catch-all with
-32603 and id null — the method never yields success, let alone twice with an
identical capabilities payload. -/
theorem C7_initialize_never_succeeds :
    runSeq defaultSettings
        [.json (.obj [("id", Json.num 1), ("method", Json.str "initialize")]),
         .json (.obj [("id", Json.num 1), ("method", Json.str "initialize")])] =
      [{ resp := { jsonrpc := "2.0", id := .null, result := none,
                   error := some { code := -32603, message := "Internal error",
                                   data := .null } },
         calls := [] },
       { resp := { jsonrpc := "2.0", id := .null, result := none,
                   error := some { code := -32603, message := "Internal error",
                                   data := .null } },
         calls := [] }] := rfl

/-- C9: evaluation on both capability-producing paths.  Neither ever produces
a capabilities payload: the response to a valid "initialize" request carries
no result at all (NameError at lines 384-385 → catch-all error instead), and
the SSE stream contains no capabilities chunk (NameError at lines 233-234 →
error event instead) — so there are no two payloads to be equal, contrary to
the claimed equivalence. -/
theorem C9_no_capabilities_payload (cfg : Settings) (cid : String) :
    (mcp_post cfg (.json (.obj [("id", Json.num 1),
        ("method", Json.str "initialize")]))).resp.result = none ∧
    (mcp_post cfg (.json (.obj [("id", Json.num 1),
        ("method", Json.str "initialize")]))).resp.error.isSome = true ∧
    ((event_stream cid).map Prod.snd).any isCapabilities = false :=
  ⟨rfl, rfl, rfl⟩

/-- C10: dispatch is stateless and deterministic: the response (and Backend
trace) of a request depends only on the request body and the startup
configuration, so the same body issued at any position of any call history
produces the identical output. -/
theorem C10_stateless_dispatch (cfg : Settings) (h1 h2 : List Body) (b : Body) :
    (runSeq cfg (h1 ++ [b])).getLast? = (runSeq cfg (h2 ++ [b])).getLast? := by
  simp [runSeq]

/-- C8: evaluation of the stream.  A session emits the ready chunk (time 0)
and then — because building the capabilities dict raises NameError — the
single error event of line 264 (time 1, after the grace sleep), after which
the generator terminates: no capabilities chunk and no heartbeat is ever
emitted, contrary to the claimed ready/capabilities/heartbeats ordering. -/
theorem C8_stream_ready_then_error (cid : String) :
    event_stream cid =
      [(0, StreamEvent.ready cid),
       (1, StreamEvent.errorEvent "Stream error" "name true is not defined")] ∧
    ((event_stream cid).map Prod.snd).any isHeartbeat = false ∧
    ((event_stream cid).map Prod.snd).any isCapabilities = false :=
  ⟨rfl, rfl, rfl⟩

/-- The counter computed by folding `hbStep` over a cancellation-free prefix
counts exactly the trailing run of consecutive failures: it is at least `k`
iff the last `k` outcomes were all failures. -/
theorem foldl_hbStep_window :
    ∀ (l : List EmitOutcome), (∀ o ∈ l, o ≠ EmitOutcome.cancelled) →
      ∀ k, (k ≤ List.foldl hbStep 0 l ↔
        l.reverse.take k = List.replicate k EmitOutcome.failure) := by
  intro l
  induction l using List.reverseRecOn with
  | nil =>
    intro _ k
    cases k <;> simp
  | append_singleton l a ih =>
    intro h k
    have hl : ∀ o ∈ l, o ≠ EmitOutcome.cancelled := fun o ho => h o (by simp [ho])
    have ha : a ≠ EmitOutcome.cancelled := h a (by simp)
    rw [List.foldl_append, List.reverse_append]
    cases a with
    | cancelled => exact absurd rfl ha
    | success =>
      cases k with
      | zero => simp
      | succ k => simp [hbStep, List.replicate_succ]
    | failure =>
      cases k with
      | zero => simp
      | succ k =>
        simp only [List.foldl_cons, List.foldl_nil, hbStep,
          List.reverse_cons, List.reverse_nil, List.nil_append,
          List.singleton_append, List.take_succ_cons, List.replicate_succ,
          List.cons.injEq, true_and]
        rw [Nat.succ_le_succ_iff]
        exact ih hl k

/-- The first-closure specification of the heartbeat loop started at counter
`m`: it breaks after exactly `j` outcomes iff `j` is within the run, the
folded counter first reaches 3 at prefix length `j`, and at no shorter
prefix. -/
def hbSpec (m : Nat) (os : List EmitOutcome) (j : Nat) : Prop :=
  1 ≤ j ∧ j ≤ os.length ∧ 3 ≤ List.foldl hbStep m (os.take j) ∧
    ∀ i < j, List.foldl hbStep m (os.take i) < 3

theorem hbLoop_char :
    ∀ (os : List EmitOutcome), (∀ o ∈ os, o ≠ EmitOutcome.cancelled) →
      ∀ m, m ≤ 2 → ∀ j, (hbLoop m os = some j ↔ hbSpec m os j) := by
  intro os
  induction os with
  | nil =>
    intro _ m _ j
    constructor
    · intro hcl
      exact absurd hcl (by simp [hbLoop])
    · rintro ⟨h1, h2, -, -⟩
      simp at h2
      omega
  | cons o os ih =>
    intro h m hm j
    have hos : ∀ x ∈ os, x ≠ EmitOutcome.cancelled :=
      fun x hx => h x (List.mem_cons_of_mem _ hx)
    cases o with
    | cancelled => exact absurd rfl (h _ (List.mem_cons_self _ _))
    | success =>
      have hstep : hbLoop m (EmitOutcome.success :: os) = (hbLoop 0 os).map (· + 1) := rfl
      rw [hstep]
      constructor
      · intro hcl
        obtain ⟨j', hj', rfl⟩ := Option.map_eq_some'.mp hcl
        obtain ⟨a1, a2, a3, a4⟩ := (ih hos 0 (by omega) j').mp hj'
        refine ⟨by omega, by simpa using a2, ?_, ?_⟩
        · simpa [List.take_succ_cons, hbStep] using a3
        · intro i hi
          cases i with
          | zero => simpa [hbStep] using (by omega : m < 3)
          | succ i' =>
            simpa [List.take_succ_cons, hbStep] using a4 i' (by omega)
      · rintro ⟨b1, b2, b3, b4⟩
        obtain ⟨j', rfl⟩ : ∃ j', j = j' + 1 := ⟨j - 1, by omega⟩
        have hj'1 : 1 ≤ j' := by
          by_contra hc
          have hz : j' = 0 := by omega
          subst hz
          simp [List.take_succ_cons, hbStep, List.take_zero] at b3
        refine Option.map_eq_some'.mpr ⟨j', (ih hos 0 (by omega) j').mpr
          ⟨hj'1, by simpa using b2, ?_, ?_⟩, rfl⟩
        · simpa [List.take_succ_cons, hbStep] using b3
        · intro i hi
          have := b4 (i + 1) (by omega)
          simpa [List.take_succ_cons, hbStep] using this
    | failure =>
      by_cases h3 : m + 1 ≥ 3
      · have hstep : hbLoop m (EmitOutcome.failure :: os) = some 1 := by
          simp [hbLoop, h3]
        rw [hstep]
        constructor
        · intro hcl
          have hj1 : j = 1 := by simpa using hcl.symm
          subst hj1
          refine ⟨le_refl 1, by simp, ?_, ?_⟩
          · simpa [List.take_succ_cons, hbStep] using h3
          · intro i hi
            have hz : i = 0 := by omega
            subst hz
            simpa [hbStep] using (by omega : m < 3)
        · rintro ⟨b1, b2, b3, b4⟩
          by_contra hne
          have hj2 : 2 ≤ j := by
            rcases Nat.lt_or_ge j 2 with hlt | hge
            · have hj1 : j = 1 := by omega
              subst hj1
              exact absurd rfl hne
            · exact hge
          have := b4 1 (by omega)
          simp [List.take_succ_cons, hbStep, List.take_zero] at this
          omega
      · have hstep : hbLoop m (EmitOutcome.failure :: os) =
            (hbLoop (m + 1) os).map (· + 1) := by
          simp [hbLoop, h3]
        rw [hstep]
        constructor
        · intro hcl
          obtain ⟨j', hj', rfl⟩ := Option.map_eq_some'.mp hcl
          obtain ⟨a1, a2, a3, a4⟩ := (ih hos (m + 1) (by omega) j').mp hj'
          refine ⟨by omega, by simpa using a2, ?_, ?_⟩
          · simpa [List.take_succ_cons, hbStep] using a3
          · intro i hi
            cases i with
            | zero => simpa [hbStep] using (by omega : m < 3)
            | succ i' =>
              simpa [List.take_succ_cons, hbStep] using a4 i' (by omega)
        · rintro ⟨b1, b2, b3, b4⟩
          obtain ⟨j', rfl⟩ : ∃ j', j = j' + 1 := ⟨j - 1, by omega⟩
          have hj'1 : 1 ≤ j' := by
            by_contra hc
            have hz : j' = 0 := by omega
            subst hz
            simp [List.take_succ_cons, hbStep, List.take_zero] at b3
            omega
          refine Option.map_eq_some'.mpr ⟨j', (ih hos (m + 1) (by omega) j').mpr
            ⟨hj'1, by simpa using b2, ?_, ?_⟩, rfl⟩
          · simpa [List.take_succ_cons, hbStep] using b3
          · intro i hi
            have := b4 (i + 1) (by omega)
            simpa [List.take_succ_cons, hbStep] using this

/-- The session closes after exactly `j` heartbeat iterations: `j` is within
the run and the last three attempted emits before closing were all failures. -/
def hbClosesSpec (os : List EmitOutcome) (j : Nat) : Prop :=
  j ≤ os.length ∧
    (os.take j).reverse.take 3 =
      [EmitOutcome.failure, EmitOutcome.failure, EmitOutcome.failure]

/-- C6: in the heartbeat loop, a successful emit resets the missed-heartbeat
counter to 0 and a failed emit increments it by 1; and along any
cancellation-free run the loop closes after consuming exactly `j` outcomes
iff the three outcomes ending at `j` are consecutive failures and no earlier
point saw three consecutive failures — never after fewer than 3 consecutive
failures and never later than the 3rd. -/
theorem C6_heartbeat_threshold (os : List EmitOutcome)
    (h : ∀ o ∈ os, o ≠ EmitOutcome.cancelled) :
    (∀ m, hbStep m EmitOutcome.success = 0) ∧
    (∀ m, hbStep m EmitOutcome.failure = m + 1) ∧
    ∀ j, (hbLoop 0 os = some j ↔
      (hbClosesSpec os j ∧ ∀ i < j, ¬ hbClosesSpec os i)) := by
  refine ⟨fun m => rfl, fun m => rfl, fun j => ?_⟩
  rw [hbLoop_char os h 0 (by omega) j]
  have hwin : ∀ n, n ≤ os.length →
      (3 ≤ List.foldl hbStep 0 (os.take n) ↔
        (os.take n).reverse.take 3 =
          [EmitOutcome.failure, EmitOutcome.failure, EmitOutcome.failure]) := by
    intro n hn
    have hnc : ∀ o ∈ os.take n, o ≠ EmitOutcome.cancelled :=
      fun o ho => h o ((List.take_sublist n os).subset ho)
    simpa [List.replicate] using foldl_hbStep_window (os.take n) hnc 3
  constructor
  · rintro ⟨h1, h2, h3, h4⟩
    refine ⟨⟨h2, (hwin j h2).mp h3⟩, ?_⟩
    rintro i hij ⟨hi1, hi2⟩
    have hge : 3 ≤ List.foldl hbStep 0 (os.take i) := (hwin i hi1).mpr hi2
    have hlt := h4 i hij
    omega
  · rintro ⟨⟨hlen, hw⟩, hmin⟩
    have hj3 : 3 ≤ j := by
      have hl3 : ((os.take j).reverse.take 3).length = 3 := by rw [hw]; rfl
      rw [List.length_take, List.length_reverse, List.length_take] at hl3
      omega
    refine ⟨by omega, hlen, (hwin j hlen).mpr hw, ?_⟩
    intro i hij
    by_contra hc
    push_neg at hc
    exact hmin i hij ⟨by omega, (hwin i (by omega)).mp hc⟩

theorem C6_witness :
    hbLoop 0 [EmitOutcome.failure, EmitOutcome.failure, EmitOutcome.failure] =
      some 3 :=
  ((C6_heartbeat_threshold
      [EmitOutcome.failure, EmitOutcome.failure, EmitOutcome.failure]
      (by decide)).2.2 3).mpr (by unfold hbClosesSpec; decide)
